import Mathlib

/-!
Shallow embedding of `docker-vertica/re-ip-node.py`, the node re-IP /
restart orchestration script, together with theorems checking the
natural-language specification against it.

Python strings are modelled as Lean `String`s, with the Python string
operations the script uses (`rstrip`, `split(sep)`, `in`) re-implemented
over `List Char` so that every definition evaluates by kernel reduction.
External effects (the filesystem, the environment, and the admintools
subprocess invocations) are modelled by an explicit `World` record; each
embedded function returns, besides its value, the list of external
commands it issued, and Python exceptions are modelled with `Except`.
-/

namespace VerticaReIp

/-- Python `str.rstrip()` on a character list: drop trailing whitespace. -/
def pyRstripL (l : List Char) : List Char :=
  (l.reverse.dropWhile Char.isWhitespace).reverse

/-- Python `str.rstrip()`. -/
def pyRstrip (s : String) : String :=
  String.mk (pyRstripL s.data)

/-- Python `str.strip()` on a character list: drop leading and trailing
whitespace (used only by the spec-modelled definitions). -/
def pyStripL (l : List Char) : List Char :=
  ((l.dropWhile Char.isWhitespace).reverse.dropWhile Char.isWhitespace).reverse

/-- Helper for `pySplitCh`: split a character list at a separator
character, keeping empty fields, accumulating the current field reversed. -/
def splitChAux (c : Char) : List Char → List Char → List (List Char)
  | [], acc => [acc.reverse]
  | x :: xs, acc =>
    if x = c then acc.reverse :: splitChAux c xs []
    else splitChAux c xs (x :: acc)

/-- Python `s.split(sep)` for a one-character separator: always returns a
non-empty list, keeps empty fields (`"".split(",") == [""]`). -/
def pySplitCh (s : String) (c : Char) : List String :=
  (splitChAux c s.data []).map String.mk

/-- Helper for `strContains`: does the needle occur as a contiguous
sublist of the haystack? -/
def isSubL (needle : List Char) : List Char → Bool
  | [] => needle.isEmpty
  | c :: cs => needle.isPrefixOf (c :: cs) || isSubL needle cs

/-- Python `needle in hay` substring test. -/
def strContains (hay needle : String) : Bool :=
  isSubL needle.data hay.data

/-- Lexicographic (code-point) order on character lists, the order `ls`
sorts directory entries by in the C locale. -/
def lexLeL : List Char → List Char → Bool
  | [], _ => true
  | _ :: _, [] => false
  | a :: as, b :: bs => if a = b then lexLeL as bs else decide (a < b)

/-- Insert a string into a lexicographically sorted list. -/
def insertStr (s : String) : List String → List String
  | [] => [s]
  | t :: ts => if lexLeL s.data t.data then s :: t :: ts else t :: insertStr s ts

/-- Sort a list of strings lexicographically (insertion sort), as `ls`
does with directory entries. -/
def sortStrings : List String → List String
  | [] => []
  | s :: ss => insertStr s (sortStrings ss)

/-- The grep pattern `^v_.*_catalog$` from the script's shell pipeline:
the entry starts with `v_` and the rest ends with `_catalog`. -/
def matchesCatalogRe (s : String) : Bool :=
  "v_".data.isPrefixOf s.data && "_catalog".data.isSuffixOf (s.data.drop 2)

/-- `sed 's/_[^_]*$//'` on one line: delete the last underscore and
everything after it; a line with no underscore is unchanged. -/
def stripLastSegL (l : List Char) : List Char :=
  match l.reverse.dropWhile (fun c => !(c = '_')) with
  | [] => l
  | _ :: rest => rest.reverse

/-- `sed 's/_[^_]*$//'` on a string. -/
def stripLastSeg (s : String) : String :=
  String.mk (stripLastSegL s.data)

/-- The shell pipeline `ls <dir> | grep '^v_.*_catalog$' | head -1 |
sed 's/_[^_]*$//'` built at re-ip-node.py line 65, applied to the raw
directory listing: `ls` sorts the entries, `grep` keeps the catalog
entries, `head -1` takes the first, `sed` strips the final
underscore-delimited segment.  An empty grep result gives empty output. -/
def lsPipeline (entries : List String) : String :=
  match (sortStrings entries).filter matchesCatalogRe with
  | [] => ""
  | e :: _ => stripLastSeg e

/-- Python exceptions that can escape the script's own code. -/
inductive PyError where
  | keyError
  | indexError
deriving DecidableEq, Repr

/-- Python list indexing `l[i]`, which raises `IndexError` out of range. -/
def pyIdx {α : Type} (l : List α) (i : Nat) : Except PyError α :=
  match l[i]? with
  | some a => Except.ok a
  | none => Except.error PyError.indexError

/-- Outcome of `configparser.ConfigParser().read` on admintools.conf,
abstracted: the read raises a `configparser.Error` (caught by the
script), or parses with no `Nodes` section, or parses with the given
`items('Nodes')` key/value list. -/
inductive ConfParse where
  | readError
  | noNodesSection
  | nodesItems (items : List (String × String))
deriving DecidableEq, Repr

/-- External commands the script can issue (through `getCommandResult`),
recorded for the execution trace. -/
inductive Cmd where
  /-- `admintools -t show_active_db` -/
  | showActiveDb
  /-- the `ls <dir> | grep | head | sed` pipeline over a directory -/
  | lsCatalog (dir : String)
  /-- `cat /etc/podinfo/superuser-passwd` -/
  | catPwd
  /-- `admintools -t db_change_node_ip -d <db> -s <node> --new-host-ips <ip>` (plus password) -/
  | dbChangeNodeIp (db node ip pwd : String)
  /-- `admintools -t restart_node -d <db> -s <node>` (plus password) -/
  | restartNodeCmd (db node pwd : String)
deriving DecidableEq, Repr

/-- The external world a single run of the script observes: the
admintools.conf file state, the `POD_IP` environment variable (absent or
present), directory listings, and the stdout text of each external
command. -/
structure World where
  /-- `os.path.isfile` on /opt/vertica/config/admintools.conf. -/
  confIsFile : Bool
  /-- `os.stat(...).st_size` of admintools.conf. -/
  confSize : Nat
  /-- Result of parsing admintools.conf with configparser. -/
  confParse : ConfParse
  /-- `os.environ['POD_IP']`: `none` models an unset variable (lookup raises `KeyError`). -/
  podIp : Option String
  /-- Raw directory listing, per directory path. -/
  listing : String → List String
  /-- stdout of `admintools -t show_active_db`. -/
  showDbOut : String
  /-- stdout of `cat /etc/podinfo/superuser-passwd 2> /dev/null || :`. -/
  pwdOut : String
  /-- stdout of `admintools -t db_change_node_ip ...`. -/
  reIpOut : String
  /-- stdout of `admintools -t restart_node ...`. -/
  restartOut : String

/-- re-ip-node.py lines 34-43, `getActiveDB`: rstrip the output of
`show_active_db`; empty means no active database; otherwise the database
name is `activeDbStr.split(" ")[0]` (the split of a non-empty string is
never empty, so the Python indexing cannot raise). -/
def getActiveDB (w : World) : String × List Cmd :=
  let activeDbStr := pyRstrip w.showDbOut
  if activeDbStr = "" then ("", [Cmd.showActiveDb])
  else ((pySplitCh activeDbStr ' ').headD "", [Cmd.showActiveDb])

/-- re-ip-node.py lines 45-70, `getLocalVerticaNodeName`.  `pathIsNone`
models the `atConfFilePath is None` guard (always `false` when called
from `main`, which passes a string literal).  `os.stat(...).st_size <= 0`
on the `Nat`-valued size is `confSize = 0`.  A `configparser.Error`
during the read is caught and yields not-found, as does a missing
`Nodes` section; but the Python list indexings `items('Nodes')[0]` and
`split(",")[1]` are unguarded, so they can raise `IndexError`. -/
def getLocalVerticaNodeName (w : World) (dbName : String) (pathIsNone : Bool) :
    Except PyError ((Bool × String) × List Cmd) :=
  if pathIsNone || !w.confIsFile || w.confSize == 0 then
    Except.ok ((false, ""), [])
  else
    match w.confParse with
    | ConfParse.readError => Except.ok ((false, ""), [])
    | ConfParse.noNodesSection => Except.ok ((false, ""), [])
    | ConfParse.nodesItems items =>
      match pyIdx items 0 with
      | Except.error e => Except.error e
      | Except.ok templateNodeInfo =>
        match pyIdx (pySplitCh templateNodeInfo.2 ',') 1 with
        | Except.error e => Except.error e
        | Except.ok catalogPath =>
          let dir := catalogPath ++ "/" ++ dbName ++ "/"
          let localVNodeName := pyRstrip (lsPipeline (w.listing dir))
          if localVNodeName = "" then
            Except.ok ((false, localVNodeName), [Cmd.lsCatalog dir])
          else
            Except.ok ((true, localVNodeName), [Cmd.lsCatalog dir])

/-- re-ip-node.py lines 72-73, `getLocalPodIp`: `os.environ['POD_IP']`
raises `KeyError` when the variable is absent. -/
def getLocalPodIp (w : World) : Except PyError String :=
  match w.podIp with
  | none => Except.error PyError.keyError
  | some s => Except.ok s

/-- re-ip-node.py lines 75-78, `getDbAdminPwd`: rstrip of the secret
file's content (the shell command never fails thanks to `|| :`). -/
def getDbAdminPwd (w : World) : String × List Cmd :=
  (pyRstrip w.pwdOut, [Cmd.catPwd])

/-- Success phrase checked at re-ip-node.py line 97. -/
def nodeReIpMsg : String := "IP addresses of nodes have been updated successfully"

/-- No-change success phrase checked at re-ip-node.py line 98. -/
def nodeNoIpChangeMsg : String := "Skip updating IP addresses: all nodes have up-to-date addresses"

/-- Failure message returned at re-ip-node.py line 102. -/
def reIpFailMsg : String :=
  "Failed to update IP address for local Vertica node, check admintools.log for more information."

/-- Failure message returned at re-ip-node.py line 84. -/
def noPodIpMsg : String := "Failed to get IP address of local Pod."

/-- re-ip-node.py lines 80-102, `reIpLocalNodeClusterUp`: read `POD_IP`
(a `KeyError` propagates), fail with `noPodIpMsg` if it is empty,
otherwise fetch the optional password, run `db_change_node_ip`, and
succeed iff the response contains one of the two known phrases. -/
def reIpLocalNodeClusterUp (w : World) (activeDb localVNodeName : String) :
    Except PyError ((Bool × String) × List Cmd) :=
  match getLocalPodIp w with
  | Except.error e => Except.error e
  | Except.ok localVNodeNewIp =>
    if localVNodeNewIp = "" then Except.ok ((false, noPodIpMsg), [])
    else
      let pwdStep := getDbAdminPwd w
      let cmd := Cmd.dbChangeNodeIp activeDb localVNodeName localVNodeNewIp pwdStep.1
      let nodeReIpResult := w.reIpOut
      if strContains nodeReIpResult nodeReIpMsg || strContains nodeReIpResult nodeNoIpChangeMsg then
        Except.ok ((true, ""), pwdStep.2 ++ [cmd])
      else
        Except.ok ((false, reIpFailMsg), pwdStep.2 ++ [cmd])

/-- Failure message returned at re-ip-node.py line 120. -/
def restartFailMsg : String :=
  "Failed to restart local Vertica node, check admintools.log for more information."

/-- re-ip-node.py lines 104-120, `restartLocalNode`: fetch the optional
password, run `restart_node`, and succeed iff the response contains
`"<localVNodeName>: (UP)"`.  No exception can arise. -/
def restartLocalNode (w : World) (activeDb localVNodeName : String) :
    (Bool × String) × List Cmd :=
  let pwdStep := getDbAdminPwd w
  let cmd := Cmd.restartNodeCmd activeDb localVNodeName pwdStep.1
  let restartResult := w.restartOut
  let nodeRestartMsg := localVNodeName ++ ": (UP)"
  if strContains restartResult nodeRestartMsg then
    ((true, ""), pwdStep.2 ++ [cmd])
  else
    ((false, restartFailMsg), pwdStep.2 ++ [cmd])

/-- Observable outcome of one run of the script: the process exit code
and the external commands issued, in order. -/
structure RunResult where
  exitCode : Nat
  cmds : List Cmd
deriving DecidableEq, Repr

/-- re-ip-node.py lines 122-171, `main`, with the two argparse flags as
booleans.  The membership check (`os.path.isfile`, line 135) is a local
filesystem test, not an external command.  Falling off the end of `main`
(neither flag set) exits the process with code 0.  An uncaught Python
exception from the node-name or re-ip steps propagates as
`Except.error`. -/
def scriptMain (w : World) (reIpNode restartNodeFlag : Bool) : Except PyError RunResult :=
  if !w.confIsFile then Except.ok ⟨0, []⟩
  else
    let probe := getActiveDB w
    if probe.1 = "" then Except.ok ⟨0, probe.2⟩
    else
      match getLocalVerticaNodeName w probe.1 false with
      | Except.error e => Except.error e
      | Except.ok (found, c2) =>
        if !found.1 then Except.ok ⟨0, probe.2 ++ c2⟩
        else if reIpNode then
          match reIpLocalNodeClusterUp w probe.1 found.2 with
          | Except.error e => Except.error e
          | Except.ok (res, c3) =>
            Except.ok ⟨if res.1 then 0 else 1, probe.2 ++ c2 ++ c3⟩
        else if restartNodeFlag then
          let step := restartLocalNode w probe.1 found.2
          Except.ok ⟨if step.1.1 then 0 else 1, probe.2 ++ c2 ++ step.2⟩
        else Except.ok ⟨0, probe.2 ++ c2⟩

/-- Modelled from the spec: "take the first listed entry's catalog-path
field (third comma-separated token of its value)" — for comparison with
the code's extraction. -/
def specCatalogPath (items : List (String × String)) : Option String :=
  match items with
  | [] => none
  | (_, v) :: _ => (pySplitCh v ',')[2]?

/-- Modelled from the spec: "parses the first whitespace-delimited token
of the (trimmed) output line as the database name" — for comparison with
the code's parsing. -/
def specActiveDbName (out : String) : String :=
  String.mk ((pyStripL out.data).takeWhile (fun c => !c.isWhitespace))

example : pySplitCh "10.0.0.1,/cat,/data" ',' = ["10.0.0.1", "/cat", "/data"] := by decide
example : pyRstrip "mydb up\n" = "mydb up" := by decide
example : lsPipeline ["v_mydb_node0002_catalog", "v_mydb_node0001_catalog", "lost+found"] =
    "v_mydb_node0001" := by decide
example : strContains "xx IP addresses of nodes have been updated successfully yy" nodeReIpMsg =
    true := by decide

/-! ## Concrete worlds used by witnesses and counterexamples -/

/-- A world where every step of the happy path works: admintools.conf
present with one Nodes entry, active database `mydb`, a catalog listing
resolving the node name, pod IP set, and both admintools verbs
answering with their success phrases. -/
def baseWorld : World :=
  ⟨true, 100,
   ConfParse.nodesItems [("v_mydb_node0001", "10.0.0.1,/catpath,/datapath")],
   some "10.0.0.5",
   fun d => if d = "/catpath/mydb/" then
     ["v_mydb_node0001_catalog", "v_mydb_node0002_catalog"] else [],
   "mydb UP 10.0.0.5\n", "",
   "IP addresses of nodes have been updated successfully",
   "v_mydb_node0001: (UP)"⟩

/-- Like `baseWorld` but with no admintools.conf file. -/
def noConfWorld : World :=
  ⟨false, 0, ConfParse.readError, some "10.0.0.5", fun _ => [], "mydb UP\n", "", "", ""⟩

/-! ## Helper lemmas on traces -/

/-- `getActiveDB` always issues exactly the show_active_db command. -/
theorem getActiveDB_trace (w : World) : (getActiveDB w).2 = [Cmd.showActiveDb] := by
  unfold getActiveDB
  dsimp only
  split <;> rfl

/-- A successful `getLocalVerticaNodeName` issues no command or a single
catalog-listing command. -/
theorem nodeName_trace {w : World} {db : String} {pin : Bool} {r : Bool × String}
    {cs : List Cmd} (h : getLocalVerticaNodeName w db pin = Except.ok (r, cs)) :
    cs = [] ∨ ∃ d, cs = [Cmd.lsCatalog d] := by
  unfold getLocalVerticaNodeName at h
  dsimp only at h
  split at h
  · exact Or.inl (by cases h; rfl)
  · split at h
    · exact Or.inl (by cases h; rfl)
    · exact Or.inl (by cases h; rfl)
    · split at h
      · cases h
      · split at h
        · cases h
        · split at h
          · exact Or.inr ⟨_, by cases h; rfl⟩
          · exact Or.inr ⟨_, by cases h; rfl⟩

/-- A non-crashing `reIpLocalNodeClusterUp` issues no command or the
password read followed by the db_change_node_ip command. -/
theorem reIp_trace {w : World} {db node : String} {r : Bool × String} {cs : List Cmd}
    (h : reIpLocalNodeClusterUp w db node = Except.ok (r, cs)) :
    cs = [] ∨ ∃ d n ip pw, cs = [Cmd.catPwd, Cmd.dbChangeNodeIp d n ip pw] := by
  unfold reIpLocalNodeClusterUp at h
  dsimp only at h
  split at h
  · cases h
  · split at h
    · exact Or.inl (by cases h; rfl)
    · split at h
      · exact Or.inr ⟨_, _, _, _, by cases h; rfl⟩
      · exact Or.inr ⟨_, _, _, _, by cases h; rfl⟩

/-! ## C6: absent membership file -/

/-- C6: whenever the membership-record file is absent
(`os.path.isfile` false), the script exits with code 0 having issued no
external command at all, whatever the mode flags. -/
theorem c6_no_membership_clean_exit (w : World) (a b : Bool)
    (h : w.confIsFile = false) : scriptMain w a b = Except.ok ⟨0, []⟩ := by
  unfold scriptMain
  rw [h]
  rfl

/-- C6 witness: a concrete world without admintools.conf, in re-ip mode. -/
theorem c6_no_membership_clean_exit_witness :
    scriptMain noConfWorld true false = Except.ok ⟨0, []⟩ :=
  c6_no_membership_clean_exit noConfWorld true false rfl

/-! ## C8: precondition checks of getLocalVerticaNodeName -/

/-- C8: when the path is `None`, the file is missing or not a regular
file (`os.path.isfile` false), or the file is empty (`st_size <= 0`),
`getLocalVerticaNodeName` returns not-found immediately: the result is
the same for every possible parse outcome `p` and every command output,
and no external command is issued — no parse of the contents is
attempted. -/
theorem c8_precheck_no_parse (p : ConfParse) (size : Nat) (isf pin : Bool)
    (ip : Option String) (lst : String → List String) (sdb pw rip rst db : String)
    (h : pin = true ∨ isf = false ∨ size = 0) :
    getLocalVerticaNodeName ⟨isf, size, p, ip, lst, sdb, pw, rip, rst⟩ db pin =
      Except.ok ((false, ""), []) := by
  unfold getLocalVerticaNodeName
  rcases h with h | h | h <;> subst h <;> simp

/-- C8 witness: an empty (size-0) admintools.conf whose parse outcome
would even be a crash-provoking Nodes entry is never parsed. -/
theorem c8_precheck_no_parse_witness :
    getLocalVerticaNodeName
      ⟨true, 0, ConfParse.nodesItems [("v_mydb_node0001", "nocomma")], some "1.2.3.4",
       fun _ => [], "", "", "", ""⟩ "mydb" false = Except.ok ((false, ""), []) :=
  c8_precheck_no_parse _ 0 true false _ _ "" "" "" "" "mydb" (Or.inr (Or.inr rfl))

/-! ## C3: parse failures -/

/-- A world whose admintools.conf parses, but whose first Nodes entry
value has no comma: `split(",")[1]` then raises `IndexError`. -/
def c3World : World :=
  ⟨true, 10, ConfParse.nodesItems [("v_mydb_node0001", "nocomma")], some "10.0.0.5",
   fun _ => [], "mydb UP\n", "", "", ""⟩

/-- C3 counterexample: a Nodes entry value lacking the expected
comma-separated fields does NOT degrade to not-found — the unguarded
`split(",")[1]` raises an uncaught `IndexError`, fatal to the process. -/
theorem c3_counterexample :
    getLocalVerticaNodeName c3World "mydb" false = Except.error PyError.indexError := by
  rfl

/-- C3 (amended): a parse failure raised by the configuration reader
itself (`configparser.Error`) is caught and degrades to not-found with
no command issued; but a parsed file whose first Nodes entry value lacks
the comma-separated fields raises an uncaught IndexError instead. -/
theorem c3_read_error_not_found (w : World) (db : String) (pin : Bool)
    (h : w.confParse = ConfParse.readError) :
    getLocalVerticaNodeName w db pin = Except.ok ((false, ""), []) := by
  unfold getLocalVerticaNodeName
  split
  · rfl
  · rw [h]

/-- C3 witness: a malformed admintools.conf (configparser.Error) in an
otherwise healthy world. -/
theorem c3_read_error_not_found_witness :
    getLocalVerticaNodeName
      ⟨true, 10, ConfParse.readError, some "10.0.0.5", fun _ => [], "mydb UP\n", "", "", ""⟩
      "mydb" false = Except.ok ((false, ""), []) :=
  c3_read_error_not_found _ "mydb" false rfl

/-! ## C1: catalog-path extraction -/

/-- A world whose first Nodes entry value is `10.0.0.1,/catpath,/datapath`:
second comma token `/catpath`, third comma token `/datapath`. -/
def c1World : World :=
  ⟨true, 10,
   ConfParse.nodesItems [("v_mydb_node0001", "10.0.0.1,/catpath,/datapath")],
   some "10.0.0.5",
   fun d => if d = "/catpath/mydb/" then ["v_mydb_node0001_catalog"] else [],
   "mydb UP\n", "", "", ""⟩

/-- C1 counterexample: the spec's "third comma-separated token" of the
first Nodes value is `/datapath`, but the code lists the catalog
directory under `/catpath` — the SECOND token (`split(",")[1]`). -/
theorem c1_counterexample :
    specCatalogPath [("v_mydb_node0001", "10.0.0.1,/catpath,/datapath")] = some "/datapath"
    ∧ getLocalVerticaNodeName c1World "mydb" false =
        Except.ok ((true, "v_mydb_node0001"), [Cmd.lsCatalog "/catpath/mydb/"])
    ∧ ("/catpath/mydb/" : String) ≠ "/datapath/mydb/" := by
  refine ⟨rfl, rfl, by decide⟩

/-- C1 (amended): for every membership file whose Nodes section is
non-empty, the catalog path is the SECOND comma-separated token (index
1) of the first listed entry's value: the directory listed is
`<token1>/<dbName>/`. -/
theorem c1_catalog_path_second_token (w : World) (db k v cp : String)
    (rest : List (String × String))
    (h1 : w.confIsFile = true) (h2 : ¬ w.confSize = 0)
    (h3 : w.confParse = ConfParse.nodesItems ((k, v) :: rest))
    (h4 : (pySplitCh v ',')[1]? = some cp) :
    ∃ r, getLocalVerticaNodeName w db false =
      Except.ok (r, [Cmd.lsCatalog (cp ++ "/" ++ db ++ "/")]) := by
  unfold getLocalVerticaNodeName
  rw [h1, h3]
  simp only [Bool.not_true, Bool.or_false, Bool.false_or, beq_iff_eq, if_neg h2]
  unfold pyIdx
  simp only [List.getElem?_cons_zero, h4]
  split <;> exact ⟨_, rfl⟩

/-- C1 witness: the amended extraction at the concrete Nodes value. -/
theorem c1_catalog_path_second_token_witness :
    ∃ r, getLocalVerticaNodeName c1World "mydb" false =
      Except.ok (r, [Cmd.lsCatalog ("/catpath" ++ "/" ++ "mydb" ++ "/")]) :=
  c1_catalog_path_second_token c1World "mydb" "v_mydb_node0001"
    "10.0.0.1,/catpath,/datapath" "/catpath" [] rfl (by decide) rfl (by decide)

/-! ## C2: missing / empty POD_IP in reconcile mode -/

/-- Like `baseWorld` but with the `POD_IP` environment variable unset. -/
def c2World : World :=
  ⟨true, 100,
   ConfParse.nodesItems [("v_mydb_node0001", "10.0.0.1,/catpath,/datapath")],
   none,
   fun d => if d = "/catpath/mydb/" then
     ["v_mydb_node0001_catalog", "v_mydb_node0002_catalog"] else [],
   "mydb UP 10.0.0.5\n", "",
   "IP addresses of nodes have been updated successfully",
   "v_mydb_node0001: (UP)"⟩

/-- C2 counterexample: with `POD_IP` absent (unset) in reconcile mode,
the run does not end in a reported failure — `os.environ['POD_IP']`
raises `KeyError`, which no handler catches, so the exception propagates
out of `main` as a crash instead of the address-unavailable message. -/
theorem c2_counterexample :
    c2World.podIp = none ∧ scriptMain c2World true false = Except.error PyError.keyError := by
  exact ⟨rfl, rfl⟩

/-- C2 (amended): when the `POD_IP` environment value is present but
EMPTY in reconcile mode, the run fails immediately: the reconciler
returns the address-unavailable message having issued no command, and
the process exits with code 1 having issued no command beyond the probe
and node-resolution steps.  (When the variable is absent, a `KeyError`
propagates as a crash instead.) -/
theorem c2_empty_pod_ip_fails (w : World) (db node : String) (b : Bool) (cs : List Cmd)
    (hip : w.podIp = some "")
    (h1 : w.confIsFile = true)
    (h2 : ¬ (getActiveDB w).1 = "")
    (h3 : getLocalVerticaNodeName w (getActiveDB w).1 false = Except.ok ((true, node), cs)) :
    reIpLocalNodeClusterUp w db node = Except.ok ((false, noPodIpMsg), [])
    ∧ scriptMain w true b = Except.ok ⟨1, (getActiveDB w).2 ++ cs⟩ := by
  have hre : ∀ d n, reIpLocalNodeClusterUp w d n = Except.ok ((false, noPodIpMsg), []) := by
    intro d n
    unfold reIpLocalNodeClusterUp getLocalPodIp
    rw [hip]
    rfl
  refine ⟨hre db node, ?_⟩
  unfold scriptMain
  rw [h1]
  dsimp only
  rw [if_neg h2, h3]
  dsimp only
  rw [hre]
  simp

/-- C2 witness: `baseWorld` with an empty `POD_IP`, reconcile mode. -/
def c2EmptyIpWorld : World :=
  ⟨true, 100,
   ConfParse.nodesItems [("v_mydb_node0001", "10.0.0.1,/catpath,/datapath")],
   some "",
   fun d => if d = "/catpath/mydb/" then
     ["v_mydb_node0001_catalog", "v_mydb_node0002_catalog"] else [],
   "mydb UP 10.0.0.5\n", "",
   "IP addresses of nodes have been updated successfully",
   "v_mydb_node0001: (UP)"⟩

/-- C2 witness: the amended behaviour at the concrete empty-`POD_IP` world. -/
theorem c2_empty_pod_ip_fails_witness :
    reIpLocalNodeClusterUp c2EmptyIpWorld "mydb" "v_mydb_node0001" =
      Except.ok ((false, noPodIpMsg), [])
    ∧ scriptMain c2EmptyIpWorld true false =
      Except.ok ⟨1, (getActiveDB c2EmptyIpWorld).2 ++ [Cmd.lsCatalog "/catpath/mydb/"]⟩ :=
  c2_empty_pod_ip_fails c2EmptyIpWorld "mydb" "v_mydb_node0001" false
    [Cmd.lsCatalog "/catpath/mydb/"] rfl rfl (by decide) rfl

/-! ## C7: active-database parsing and the empty case -/

/-- A world where show_active_db prints a tab-separated line. -/
def c7World : World :=
  ⟨true, 100,
   ConfParse.nodesItems [("v_mydb_node0001", "10.0.0.1,/catpath,/datapath")],
   some "10.0.0.5", fun _ => [], "mydb\tUP\n", "", "", ""⟩

/-- C7 counterexample: the code splits the rstripped output on the SPACE
character only (`split(" ")[0]`), not on whitespace: for the
tab-separated output line `"mydb\tUP\n"` the code takes the whole line
`"mydb\tUP"` as the database name, while the spec's first
whitespace-delimited token of the trimmed output is `"mydb"`. -/
theorem c7_counterexample :
    (getActiveDB c7World).1 = "mydb\tUP"
    ∧ specActiveDbName c7World.showDbOut = "mydb"
    ∧ ("mydb\tUP" : String) ≠ "mydb" := by
  refine ⟨rfl, rfl, by decide⟩

/-- C7 (amended): `getActiveDB` parses the first SPACE-delimited token
(`split(" ")[0]`) of the right-trimmed (`rstrip`) output as the database
name; when the right-trimmed output is empty the result is absent
(empty), and the process then exits cleanly with code 0 with no further
external command beyond the probe itself. -/
theorem c7_active_db_parsing (w : World) (a b : Bool) :
    (pyRstrip w.showDbOut = "" →
      getActiveDB w = ("", [Cmd.showActiveDb])
      ∧ (w.confIsFile = true → scriptMain w a b = Except.ok ⟨0, [Cmd.showActiveDb]⟩))
    ∧ (¬ pyRstrip w.showDbOut = "" →
      getActiveDB w = ((pySplitCh (pyRstrip w.showDbOut) ' ').headD "", [Cmd.showActiveDb])) := by
  constructor
  · intro he
    have hdb : getActiveDB w = ("", [Cmd.showActiveDb]) := by
      unfold getActiveDB
      rw [he]
      rfl
    refine ⟨hdb, fun hc => ?_⟩
    unfold scriptMain
    rw [hc]
    dsimp only
    rw [hdb]
    rfl
  · intro hne
    unfold getActiveDB
    dsimp only
    rw [if_neg hne]

/-- C7 witness: the amended behaviour with an empty show_active_db
output (and, for the non-empty clause, the tab world). -/
theorem c7_active_db_parsing_witness :
    (getActiveDB
        ⟨true, 100, ConfParse.readError, some "1.2.3.4", fun _ => [], "\n", "", "", ""⟩ =
      ("", [Cmd.showActiveDb])
    ∧ scriptMain
        ⟨true, 100, ConfParse.readError, some "1.2.3.4", fun _ => [], "\n", "", "", ""⟩
        true false = Except.ok ⟨0, [Cmd.showActiveDb]⟩)
    ∧ getActiveDB c7World =
      ((pySplitCh (pyRstrip c7World.showDbOut) ' ').headD "", [Cmd.showActiveDb]) := by
  have h1 := (c7_active_db_parsing
    ⟨true, 100, ConfParse.readError, some "1.2.3.4", fun _ => [], "\n", "", "", ""⟩
    true false).1 (by decide)
  have h2 := (c7_active_db_parsing c7World true false).2 (by decide)
  exact ⟨⟨h1.1, h1.2 rfl⟩, h2⟩

/-! ## C4: reconcile-address success phrases -/

/-- C4: when `POD_IP` is present and non-empty, `reIpLocalNodeClusterUp`
succeeds if and only if the db_change_node_ip response contains one of
the two known phrases (`nodeReIpMsg` or `nodeNoIpChangeMsg`); any other
response yields the failure message, which points at admintools.log.
The function is a pure function of the world, so a second invocation in
the same world — in particular a repeat run with an unchanged pod
address whose response carries the already-up-to-date phrase — returns
the same success. -/
theorem c4_reconcile_success_iff (w : World) (db node ip : String)
    (hp : w.podIp = some ip) (hip : ¬ ip = "") :
    ((∃ t, reIpLocalNodeClusterUp w db node = Except.ok ((true, ""), t)) ↔
      (strContains w.reIpOut nodeReIpMsg || strContains w.reIpOut nodeNoIpChangeMsg) = true)
    ∧ ((strContains w.reIpOut nodeReIpMsg || strContains w.reIpOut nodeNoIpChangeMsg) = false →
      ∃ t, reIpLocalNodeClusterUp w db node = Except.ok ((false, reIpFailMsg), t))
    ∧ strContains reIpFailMsg "admintools.log" = true
    ∧ (strContains w.reIpOut nodeNoIpChangeMsg = true →
      ∃ t, reIpLocalNodeClusterUp w db node = Except.ok ((true, ""), t)) := by
  have hrun : reIpLocalNodeClusterUp w db node =
      if (strContains w.reIpOut nodeReIpMsg || strContains w.reIpOut nodeNoIpChangeMsg) = true
      then Except.ok ((true, ""),
        [Cmd.catPwd, Cmd.dbChangeNodeIp db node ip (pyRstrip w.pwdOut)])
      else Except.ok ((false, reIpFailMsg),
        [Cmd.catPwd, Cmd.dbChangeNodeIp db node ip (pyRstrip w.pwdOut)]) := by
    unfold reIpLocalNodeClusterUp getLocalPodIp
    rw [hp]
    dsimp only
    rw [if_neg hip]
    rfl
  refine ⟨⟨fun ⟨t, ht⟩ => ?_, fun hc => ?_⟩, fun hc => ?_, by decide, fun hc => ?_⟩
  · by_contra hno
    rw [hrun, if_neg hno] at ht
    cases ht
  · exact ⟨_, by rw [hrun, if_pos hc]⟩
  · exact ⟨[Cmd.catPwd, Cmd.dbChangeNodeIp db node ip (pyRstrip w.pwdOut)],
      by rw [hrun, if_neg (by simp [hc])]⟩
  · exact ⟨[Cmd.catPwd, Cmd.dbChangeNodeIp db node ip (pyRstrip w.pwdOut)],
      by rw [hrun, if_pos (by simp [hc])]⟩

/-- C4 witness: in `baseWorld` the response carries the updated-successfully
phrase, so reconciliation succeeds. -/
theorem c4_reconcile_success_iff_witness :
    ∃ t, reIpLocalNodeClusterUp baseWorld "mydb" "v_mydb_node0001" =
      Except.ok ((true, ""), t) :=
  (c4_reconcile_success_iff baseWorld "mydb" "v_mydb_node0001" "10.0.0.5"
    rfl (by decide)).1.2 (by decide)

/-! ## C5: restart success condition -/

/-- C5: `restartLocalNode` succeeds if and only if the restart_node
response contains `"<nodeId>: (UP)"`; any other response yields the
failure message pointing at admintools.log; and in restart mode the
process exits 0 on the match and 1 otherwise. -/
theorem c5_restart_success_iff (w : World) (db node : String) :
    (((restartLocalNode w db node).1.1 = true) ↔
      strContains w.restartOut (node ++ ": (UP)") = true)
    ∧ ((restartLocalNode w db node).1.1 = false →
      (restartLocalNode w db node).1.2 = restartFailMsg)
    ∧ strContains restartFailMsg "admintools.log" = true
    ∧ (∀ cs : List Cmd,
        w.confIsFile = true →
        ¬ (getActiveDB w).1 = "" →
        getLocalVerticaNodeName w (getActiveDB w).1 false = Except.ok ((true, node), cs) →
        ∃ t, scriptMain w false true =
          Except.ok ⟨if strContains w.restartOut (node ++ ": (UP)") = true then 0 else 1, t⟩) := by
  have hrun : ∀ d : String, restartLocalNode w d node =
      if strContains w.restartOut (node ++ ": (UP)") = true then
        ((true, ""), [Cmd.catPwd, Cmd.restartNodeCmd d node (pyRstrip w.pwdOut)])
      else ((false, restartFailMsg), [Cmd.catPwd, Cmd.restartNodeCmd d node (pyRstrip w.pwdOut)]) := by
    intro d
    unfold restartLocalNode getDbAdminPwd
    rfl
  refine ⟨?_, ?_, by decide, ?_⟩
  · rw [hrun db]
    by_cases hc : strContains w.restartOut (node ++ ": (UP)") = true <;> simp [hc]
  · rw [hrun db]
    by_cases hc : strContains w.restartOut (node ++ ": (UP)") = true <;> simp [hc]
  · intro cs h1 h2 h3
    refine ⟨(getActiveDB w).2 ++ cs ++ (restartLocalNode w (getActiveDB w).1 node).2, ?_⟩
    unfold scriptMain
    rw [h1]
    dsimp only
    rw [if_neg h2, h3]
    dsimp only
    by_cases hc : strContains w.restartOut (node ++ ": (UP)") = true <;>
      simp [hrun, hc]

/-- C5 witness: in `baseWorld` the restart_node response carries
`v_mydb_node0001: (UP)`, so restart mode exits 0. -/
theorem c5_restart_success_iff_witness :
    ∃ t, scriptMain baseWorld false true = Except.ok ⟨0, t⟩ := by
  have h := (c5_restart_success_iff baseWorld "mydb" "v_mydb_node0001").2.2.2
    [Cmd.lsCatalog "/catpath/mydb/"] rfl (by decide) rfl
  rcases h with ⟨t, ht⟩
  exact ⟨t, by rw [ht]; rfl⟩

/-! ## C9: node-identifier extraction from the catalog listing -/

/-- C9: node identifier extraction is a deterministic function of the
catalog directory listing alone.  (1) For the listing
`["v_mydb_node0001_catalog", "v_mydb_node0002_catalog"]` the pipeline
yields `v_mydb_node0001`.  (2) If no entry survives the
`^v_.*_catalog$` filter, the pipeline yields the empty result, which
`getLocalVerticaNodeName` turns into not-found.  (3) Hyperproperty: two
runs of `getLocalVerticaNodeName`, in arbitrary worlds and databases,
whose catalog directories list the same entries produce the same
(found, nodeId) outcome. -/
theorem c9_node_id_deterministic :
    lsPipeline ["v_mydb_node0001_catalog", "v_mydb_node0002_catalog"] = "v_mydb_node0001"
    ∧ (∀ entries : List String,
        (sortStrings entries).filter matchesCatalogRe = [] → lsPipeline entries = "")
    ∧ (∀ (w w' : World) (db db' k v k' v' cp cp' : String)
        (rest rest' : List (String × String)),
        w.confIsFile = true → ¬ w.confSize = 0 →
        w.confParse = ConfParse.nodesItems ((k, v) :: rest) →
        (pySplitCh v ',')[1]? = some cp →
        w'.confIsFile = true → ¬ w'.confSize = 0 →
        w'.confParse = ConfParse.nodesItems ((k', v') :: rest') →
        (pySplitCh v' ',')[1]? = some cp' →
        w.listing (cp ++ "/" ++ db ++ "/") = w'.listing (cp' ++ "/" ++ db' ++ "/") →
        (getLocalVerticaNodeName w db false).map Prod.fst =
          (getLocalVerticaNodeName w' db' false).map Prod.fst) := by
  refine ⟨by decide, ?_, ?_⟩
  · intro entries h
    unfold lsPipeline
    rw [h]
  · intro w w' db db' k v k' v' cp cp' rest rest' a1 a2 a3 a4 b1 b2 b3 b4 hl
    unfold getLocalVerticaNodeName
    rw [a1, a3, b1, b3]
    simp only [Bool.not_true, Bool.or_false, Bool.false_or, beq_iff_eq,
      if_neg a2, if_neg b2]
    unfold pyIdx
    simp only [List.getElem?_cons_zero, a4, b4]
    rw [hl]
    split <;> rfl

/-- C9 witness: two worlds that disagree on everything except the
listed catalog entries resolve the same node identifier. -/
def c9WorldA : World :=
  ⟨true, 100,
   ConfParse.nodesItems [("v_mydb_node0001", "10.0.0.1,/catpath,/datapath")],
   some "10.0.0.5",
   fun d => if d = "/catpath/mydb/" then
     ["v_mydb_node0001_catalog", "v_mydb_node0002_catalog"] else [],
   "mydb UP\n", "", "", ""⟩

/-- Second world for the C9 witness: different database, catalog path,
environment and command outputs, same catalog listing. -/
def c9WorldB : World :=
  ⟨true, 7,
   ConfParse.nodesItems [("ignoredname", "1.1.1.1,/other,/x"), ("k2", "v2")],
   none,
   fun d => if d = "/other/otherdb/" then
     ["v_mydb_node0001_catalog", "v_mydb_node0002_catalog"] else ["junk"],
   "otherdb\n", "pw", "zzz", "zzz"⟩

/-- C9 witness: the hyperproperty applied at the two concrete worlds. -/
theorem c9_node_id_deterministic_witness :
    (getLocalVerticaNodeName c9WorldA "mydb" false).map Prod.fst =
      (getLocalVerticaNodeName c9WorldB "otherdb" false).map Prod.fst :=
  c9_node_id_deterministic.2.2 c9WorldA c9WorldB "mydb" "otherdb"
    "v_mydb_node0001" "10.0.0.1,/catpath,/datapath" "ignoredname" "1.1.1.1,/other,/x"
    "/catpath" "/other" [] [("k2", "v2")]
    rfl (by decide) rfl (by decide) rfl (by decide) rfl (by decide) (by decide)

/-! ## C10: mode-flag selection -/

/-- C10: (1) with both flags supplied, the run is identical to a
reconcile-only run — the restart operation is never invoked, and no
restart command appears in the trace; (2) with neither flag, every
non-crashing run exits 0 and issues neither a reconcile nor a restart
command. -/
theorem c10_flag_selection :
    (∀ w : World, scriptMain w true true = scriptMain w true false)
    ∧ (∀ (w : World) (r : RunResult), scriptMain w true true = Except.ok r →
        ∀ d n pw, Cmd.restartNodeCmd d n pw ∉ r.cmds)
    ∧ (∀ (w : World) (r : RunResult), scriptMain w false false = Except.ok r →
        r.exitCode = 0
        ∧ (∀ d n ip pw, Cmd.dbChangeNodeIp d n ip pw ∉ r.cmds)
        ∧ (∀ d n pw, Cmd.restartNodeCmd d n pw ∉ r.cmds)) := by
  refine ⟨fun w => rfl, ?_, ?_⟩
  · intro w r h d n pw
    unfold scriptMain at h
    dsimp only at h
    split at h
    · cases h
      simp
    · split at h
      · cases h
        simp [getActiveDB_trace]
      · split at h
        · cases h
        · rename_i found c2 heq
          split at h
          · cases h
            rcases nodeName_trace heq with h2 | ⟨d2, h2⟩ <;>
              subst h2 <;> simp [getActiveDB_trace]
          · simp only [eq_self_iff_true, if_true] at h
            split at h
            · cases h
            · rename_i res c3 heq3
              cases h
              rcases nodeName_trace heq with h2 | ⟨d2, h2⟩ <;>
                rcases reIp_trace heq3 with h3 | ⟨dd, nn, pp, qq, h3⟩ <;>
                subst h2 <;> subst h3 <;> simp [getActiveDB_trace]
  · intro w r h
    unfold scriptMain at h
    (try dsimp only at h)
    split at h
    · cases h
      simp
    · split at h
      · cases h
        simp [getActiveDB_trace]
      · split at h
        · cases h
        · rename_i found c2 heq
          split at h
          · cases h
            rcases nodeName_trace heq with h2 | ⟨d2, h2⟩ <;>
              subst h2 <;> simp [getActiveDB_trace]
          · simp only [Bool.false_eq_true, if_false] at h
            cases h
            rcases nodeName_trace heq with h2 | ⟨d2, h2⟩ <;>
              subst h2 <;> simp [getActiveDB_trace]

/-- C10 witness: in `baseWorld`, the both-flags run equals the
reconcile-only run, and a no-flags run exits 0 with no operation. -/
theorem c10_flag_selection_witness :
    scriptMain baseWorld true true = scriptMain baseWorld true false
    ∧ (∀ d n pw, Cmd.restartNodeCmd d n pw ∉
        [Cmd.showActiveDb, Cmd.lsCatalog "/catpath/mydb/"])
    ∧ ((⟨0, [Cmd.showActiveDb, Cmd.lsCatalog "/catpath/mydb/"]⟩ : RunResult).exitCode = 0) := by
  refine ⟨c10_flag_selection.1 baseWorld, ?_, ?_⟩
  · have h := (c10_flag_selection.2.2 baseWorld
      ⟨0, [Cmd.showActiveDb, Cmd.lsCatalog "/catpath/mydb/"]⟩ rfl).2.2
    exact h
  · exact (c10_flag_selection.2.2 baseWorld
      ⟨0, [Cmd.showActiveDb, Cmd.lsCatalog "/catpath/mydb/"]⟩ rfl).1

end VerticaReIp
